import Mathlib

/-!
Verification of the BACnet service dispatch engine of
conpot/protocols/bacnet/bacnet_app.py (class BACnetApp).

The Python source is shallowly embedded below.  Conventions used for the
embedding:

- BACnet object identifiers, which the source manipulates as Python pairs
  (type tag string, instance number), become the structure ObjId.
- Property values are carried symbolically in the tagged union BacVal; the
  handlers under verification never compute with them, they only move them.
- The mutable instance attribute self dot underscore-response (the single
  response slot written by every handler) is made explicit: each handler
  receives the previous slot content (prv) and returns the new one, with
  none standing for the Python value None, meaning "no reply".
- Behaviour of the external bacpypes library (the codec and object model the
  source is built on) is modelled by definitions marked as such in their
  doc comments, following the library behaviour this repository relies on
  and the description in the spec.
- Exceptions that the source raises and does not catch are made explicit in
  result types (IndicationResult.crash, TransmitResult.runtimeError).
-/

set_option autoImplicit false

namespace Conpot

/-- BACnet object identifier: a pair of object-type tag and instance number,
as manipulated by the source (request.objectIdentifier[0] is the type tag,
request.objectIdentifier[1] the instance number). -/
structure ObjId where
  typ : String
  inst : Nat
  deriving Repr, DecidableEq

/-- Property values as the handlers move them around.  The null constructor
models the bacpypes expression Any cast-in of datatype(None): a null-typed
value of the named datatype. -/
inductive BacVal where
  | str (s : String)
  | unsignedVal (n : Nat)
  | realVal (tenths : Int)
  | boolVal (b : Bool)
  | null (datatypeName : String)
  deriving Repr, DecidableEq

/-- One property slot of a bacpypes object: the per-class schema entry
(declared datatype, optionality flag) together with the per-instance value,
which is absent (none) when the template never set it. -/
structure BacProp where
  valueOpt : Option BacVal
  datatypeName : String
  optionalFlag : Bool
  deriving Repr, DecidableEq

/-- An emulated BACnet object as the handlers see it: its objectName and its
underscore-properties table (property identifier to property slot, in
iteration order). -/
structure BacObject where
  objectName : String
  propsL : List (String × BacProp)
  deriving Repr, DecidableEq

/-- The local device (self dot localDevice): identifier, name, the scalar
attributes the Who-Is handler reads, and its own property table. -/
structure Device where
  objectIdentifier : ObjId
  objectName : String
  maxApduLengthAccepted : Nat
  segmentationSupported : String
  vendorIdentifier : Nat
  propsL : List (String × BacProp)
  deriving Repr, DecidableEq

/-- The BACnetApp state the handlers read.  ownedObjects is the contents of
the self dot objectIdentifier dictionary minus the device entry, in
insertion (registration) order; the device entry is inserted first, in
the constructor, and add-object appends the others. -/
structure BACnetApp where
  localDevice : Device
  deviceIdentifier : ObjId
  ownedObjects : List (ObjId × BacObject)
  deriving Repr, DecidableEq

/-- Association-list lookup, modelling Python dictionary lookup by key. -/
def alookup {α β : Type} [DecidableEq α] : List (α × β) → α → Option β
  | [], _ => none
  | (k, v) :: rest, key => if key = k then some v else alookup rest key

/-- List membership as a boolean, modelling a Python dictionary key test. -/
def natMem (n : Nat) : List Nat → Bool
  | [] => false
  | m :: rest => if n = m then true else natMem n rest

/-- The device viewed as a dictionary entry (name plus property table),
which is how self dot objectIdentifier stores it. -/
def deviceAsObject (d : Device) : BacObject :=
  ⟨d.objectName, d.propsL⟩

/-- The self dot objectIdentifier dictionary: the device entry first (it is
inserted in the constructor), then every registered object. -/
def objectIdentifierDict (app : BACnetApp) : List (ObjId × BacObject) :=
  (app.localDevice.objectIdentifier, deviceAsObject app.localDevice) :: app.ownedObjects

/-- Keys of the self dot objectIdentifier dictionary in insertion order. -/
def objectIdentifierKeys (app : BACnetApp) : List ObjId :=
  app.localDevice.objectIdentifier :: app.ownedObjects.map Prod.fst

/-- The instance number used by the range filters: the source evaluates
list of objectIdentifier keys, index 0, component 1, which is the instance
number of the first dictionary key, always the device identifier. -/
def deviceRangeInstance (app : BACnetApp) : Nat :=
  ((objectIdentifierKeys app).headD ⟨"device", 0⟩).inst

/-- Modelled from the spec: the device objectList as initialised by the
device construction outside this file.  Per the spec data model it holds the
identifiers the device owns, and in the bacpypes array layout the value list
stores the element count at index 0 and the device own identifier at
index 1.  Hence the Python slice value[2:] used by whoHas and
readPropertyMultiple is exactly the owned object identifiers. -/
def ownedIds (app : BACnetApp) : List ObjId :=
  app.ownedObjects.map Prod.fst

/-- The Python slice device.objectList.value[1:] used by readProperty: the
device own identifier followed by the owned object identifiers. -/
def objectListFrom1 (app : BACnetApp) : List ObjId :=
  app.localDevice.objectIdentifier :: ownedIds app

/-- Destination or source addresses, mirroring the bacpypes address kinds
(Address.addrType).  PduAddress applied to a host and port tuple yields a
localStation address. -/
inductive Addr where
  | nullAddr
  | localStation (host : String) (port : Nat)
  | localBroadcast
  | remoteStation (net : Nat) (host : String) (port : Nat)
  | remoteBroadcast (net : Nat)
  | globalBroadcast
  deriving Repr, DecidableEq

/-- Outcome of reading one property inside Read-Property-Multiple: either a
value or a per-element property access error. -/
inductive ReadResult where
  | value (v : BacVal)
  | accessError (errorClass : String) (errorCode : String)
  deriving Repr, DecidableEq

/-- One element of a read access result list. -/
structure ReadAccessResultElement where
  propertyIdentifier : String
  propertyArrayIndex : Option Nat
  readResult : ReadResult
  deriving Repr, DecidableEq

/-- The per-object result of Read-Property-Multiple. -/
structure ReadAccessResult where
  objectIdentifier : ObjId
  listOfResults : List ReadAccessResultElement
  deriving Repr, DecidableEq

/-- The response objects the handlers store into the response slot, with the
fields the source assigns.  Note that the iHave constructor carries a bare
instance number in its objectIdentifier field, because the source assigns
obj[1] there.  bacError models the bacpypes Error service response;
errorPDU models the bare ErrorPDU built by the unconfirmed dispatch. -/
inductive Response where
  | iAm (pduDestination : Addr) (iAmDeviceIdentifier : ObjId)
      (maxAPDULengthAccepted : Nat) (segmentationSupported : String) (vendorID : Nat)
  | iHave (pduDestination : Addr) (deviceIdentifier : ObjId)
      (objectIdentifier : Nat) (objectName : String)
  | readPropertyAck (pduDestination : Addr) (apduInvokeID : Nat)
      (objectIdentifier : ObjId) (objectName : Option String)
      (propertyIdentifier : String) (propertyValue : BacVal)
  | readPropertyMultipleAck (listOfReadAccessResults : List ReadAccessResult)
  | bacError (errorClass : String) (errorCode : String)
  | errorPDU (pduDestination : Addr)
  deriving Repr, DecidableEq

/-- Error payload of a bacpypes ExecutionError. -/
structure ExecError where
  errorClass : String
  errorCode : String
  deriving Repr, DecidableEq

/-- Models the external bacpypes helper read-property-to-any, as the spec
describes it and as the source relies on it: a property identifier with no
declared datatype on the object raises ExecutionError(property,
datatypeNotSupported); one with a declared datatype but no stored value
raises ExecutionError(property, unknownProperty); otherwise the stored
value is returned.  The property array index is not modelled (the source
passes it through untouched). -/
def read_property_to_any (o : BacObject) (pid : String) : Except ExecError BacVal :=
  match alookup o.propsL pid with
  | none => .error ⟨"property", "datatypeNotSupported"⟩
  | some p =>
    match p.valueOpt with
    | some v => .ok v
    | none => .error ⟨"property", "unknownProperty"⟩

/-- Models the bacpypes get-datatype method: the declared datatype of a
property identifier, when the object class knows it. -/
def get_datatype (o : BacObject) (pid : String) : Option String :=
  (alookup o.propsL pid).map (fun p => p.datatypeName)

/-- The Who-Is request fields the handler reads (limits are optional). -/
structure WhoIsRequest where
  deviceInstanceRangeLowLimit : Option Nat
  deviceInstanceRangeHighLimit : Option Nat
  deriving Repr, DecidableEq

/-- The execute flag computed by whoIs, lines 172 to 189 of the source.
When both limits are present the source skips execution only when the
Python chained comparison low > instance > high holds, which means
(low > instance) and (instance > high); in every other case, including a
missing limit, execute is set to true. -/
def whoIsExecute (app : BACnetApp) (req : WhoIsRequest) : Bool :=
  match req.deviceInstanceRangeLowLimit, req.deviceInstanceRangeHighLimit with
  | some low, some high =>
    if low > deviceRangeInstance app ∧ deviceRangeInstance app > high then
      false
    else
      true
  | _, _ => true

/-- The whoIs handler, lines 171 to 205.  On execute it overwrites the
response slot with an I-Am whose destination is PduAddress(address), the
requester address as a local station; otherwise the slot is left as it
was. -/
def whoIs (app : BACnetApp) (prv : Option Response) (req : WhoIsRequest)
    (address : String × Nat) : Option Response :=
  if whoIsExecute app req then
    some (.iAm (.localStation address.1 address.2) app.deviceIdentifier
      app.localDevice.maxApduLengthAccepted
      app.localDevice.segmentationSupported
      app.localDevice.vendorIdentifier)
  else
    prv

/-- The Who-Has request fields the handler reads: the optional range limits
and the requested object reference (request.object.objectIdentifier). -/
structure WhoHasRequest where
  deviceInstanceRangeLowLimit : Option Nat
  deviceInstanceRangeHighLimit : Option Nat
  objectIdentifier : ObjId
  deriving Repr, DecidableEq

/-- The execute flag computed by whoHas, lines 208 to 224, a textual copy of
the whoIs range check including the same chained comparison. -/
def whoHasExecute (app : BACnetApp) (req : WhoHasRequest) : Bool :=
  match req.deviceInstanceRangeLowLimit, req.deviceInstanceRangeHighLimit with
  | some low, some high =>
    if low > deviceRangeInstance app ∧ deviceRangeInstance app > high then
      false
    else
      true
  | _, _ => true

/-- The scan of whoHas over device.objectList.value[2:], lines 227 to 231:
the first object whose instance number and type tag both equal the
requested reference. -/
def findWhoHas (target : ObjId) : List ObjId → Option ObjId
  | [] => none
  | o :: rest =>
    if target.inst = o.inst ∧ target.typ = o.typ then some o
    else findWhoHas target rest

/-- The whoHas handler, lines 207 to 244.  On the first matching object it
overwrites the response slot with an I-Have carrying the device identifier,
the bare instance number obj[1], and the objectName found in the
objectIdentifier dictionary; on no match (or no execute) the slot is left
as it was.  The getD branch is unreachable: every scanned identifier is a
dictionary key. -/
def whoHas (app : BACnetApp) (prv : Option Response) (req : WhoHasRequest)
    (address : String × Nat) : Option Response :=
  if whoHasExecute app req then
    match findWhoHas req.objectIdentifier (ownedIds app) with
    | some obj =>
      some (.iHave (.localStation address.1 address.2) app.deviceIdentifier
        obj.inst
        (((alookup (objectIdentifierDict app) obj).map
            (fun e => e.objectName)).getD ""))
    | none => prv
  else
    prv

/-- The Read-Property request fields the handler reads.  The property array
index is not modelled: the source forwards it untouched. -/
structure ReadPropertyRequest where
  objectIdentifier : ObjId
  propertyIdentifier : String
  deriving Repr, DecidableEq

/-- The match test of the readProperty loop, line 250 to 253: the requested
instance is the wildcard 4194303 or equals the candidate instance, and the
type tags agree. -/
def rpMatchesB (rid : ObjId) (oid : ObjId) : Bool :=
  (rid.inst = 4194303 ∨ rid.inst = oid.inst) ∧ rid.typ = oid.typ

/-- Processing of the first matching identifier in readProperty, lines 254
to 305.  When the identifier is a key of the objectIdentifier dictionary
(always the case for identifiers of the object list) the object found there
is read; an unknownProperty failure is converted to an Ack holding a
null-typed value of the declared datatype, any other failure to an Error
response.  The branch for an identifier missing from the dictionary mirrors
the source fallback that reads the root device directly (and omits the
objectName from the Ack). -/
def processMatch (app : BACnetApp) (req : ReadPropertyRequest)
    (address : String × Nat) (invokeKey : Nat) (obj : ObjId) : Response :=
  match alookup (objectIdentifierDict app) obj with
  | some entry =>
    match read_property_to_any entry req.propertyIdentifier with
    | .ok v =>
      .readPropertyAck (.localStation address.1 address.2) invokeKey obj
        (some entry.objectName) req.propertyIdentifier v
    | .error e =>
      if e.errorCode = "unknownProperty" then
        .readPropertyAck (.localStation address.1 address.2) invokeKey obj
          (some entry.objectName) req.propertyIdentifier
          (.null ((get_datatype entry req.propertyIdentifier).getD ""))
      else
        .bacError e.errorClass e.errorCode
  | none =>
    match read_property_to_any (deviceAsObject app.localDevice) req.propertyIdentifier with
    | .ok v =>
      .readPropertyAck (.localStation address.1 address.2) invokeKey obj
        none req.propertyIdentifier v
    | .error e =>
      if e.errorCode = "unknownProperty" then
        .readPropertyAck (.localStation address.1 address.2) invokeKey obj
          none req.propertyIdentifier
          (.null ((get_datatype (deviceAsObject app.localDevice) req.propertyIdentifier).getD ""))
      else
        .bacError e.errorClass e.errorCode

/-- The for loop of readProperty over device.objectList.value[1:], lines 249
to 312, including the for-else clause that answers Error(object,
unknownObject) when no identifier matched. -/
def readPropLoop (app : BACnetApp) (req : ReadPropertyRequest)
    (address : String × Nat) (invokeKey : Nat) : List ObjId → Response
  | [] => .bacError "object" "unknownObject"
  | obj :: rest =>
    if rpMatchesB req.objectIdentifier obj then
      processMatch app req address invokeKey obj
    else
      readPropLoop app req address invokeKey rest

/-- The readProperty handler, lines 246 to 312.  It always stores a
response: an Ack, a propagated Error, or Error(object, unknownObject). -/
def readProperty (app : BACnetApp) (req : ReadPropertyRequest)
    (address : String × Nat) (invokeKey : Nat) : Response :=
  readPropLoop app req address invokeKey (objectListFrom1 app)

/-- One property reference of a read access specification. -/
structure PropReference where
  propertyIdentifier : String
  propertyArrayIndex : Option Nat
  deriving Repr, DecidableEq

/-- One read access specification of a Read-Property-Multiple request. -/
structure ReadAccessSpec where
  objectIdentifier : ObjId
  listOfPropertyReferences : List PropReference
  deriving Repr, DecidableEq

/-- The Read-Property-Multiple request body. -/
structure RPMRequest where
  listOfReadAccessSpecs : List ReadAccessSpec
  deriving Repr, DecidableEq

/-- Linear scan of a list of identifiers for an exact match, modelling the
for loop over device.objectList.value[2:] at lines 331 to 335. -/
def scanOwned (oid : ObjId) : List ObjId → Bool
  | [] => false
  | o :: rest => if oid = o then true else scanOwned oid rest

/-- Object resolution of readPropertyMultiple, lines 325 to 335: the device
wildcard pair (device, 4194303) and the device own identifier resolve to
the local device (and the reported identifier is rewritten to the device
identifier); any other identifier is searched in the owned object list and,
when found, fetched from the objectIdentifier dictionary.  The Python guard
that localDevice is not None is always true and not modelled. -/
def resolveRPM (app : BACnetApp) (oid : ObjId) : ObjId × Option BacObject :=
  if oid = ObjId.mk "device" 4194303 ∨ oid = app.localDevice.objectIdentifier then
    (app.localDevice.objectIdentifier, some (deviceAsObject app.localDevice))
  else
    (oid,
      if scanOwned oid (ownedIds app) then alookup (objectIdentifierDict app) oid
      else none)

/-- Models the external bacpypes helper read-property-to-result-element: a
missing object becomes a per-element unknownObject access error, a read
failure becomes a per-element access error with the propagated class and
code, and a successful read becomes a value element.  The enclosing source
try blocks that turn an escaped exception into an unknownObject element are
unreachable over this total model. -/
def read_property_to_result_element (objOpt : Option BacObject) (pid : String)
    (aidx : Option Nat) : ReadAccessResultElement :=
  let rr : ReadResult :=
    match objOpt with
    | none => .accessError "object" "unknownObject"
    | some o =>
      match read_property_to_any o pid with
      | .ok v => .value v
      | .error e => .accessError e.errorClass e.errorCode
  ⟨pid, aidx, rr⟩

/-- The undefined-property filter applied after each element is built, lines
397 to 400 and 425 to 428: an element whose read result is an access error
with code unknownProperty is silently dropped. -/
def keepElement (e : ReadAccessResultElement) : Bool :=
  match e.readResult with
  | .accessError _ code => if code = "unknownProperty" then false else true
  | .value _ => true

/-- The selector filter of the all, required and optional special property
identifiers, lines 365 to 376: the propertyList meta property is always
skipped, required keeps only non optional properties, optional keeps only
optional ones. -/
def selectorKeeps (sel : String) (pid : String) (optionalFlag : Bool) : Bool :=
  if pid = "propertyList" then false
  else if sel = "required" ∧ optionalFlag = true then false
  else if sel = "optional" ∧ optionalFlag = false then false
  else true

/-- The element list produced for one special selector over the full
property table of a resolved object, lines 364 to 403. -/
def selectorElements (o : BacObject) (sel : String) (aidx : Option Nat) :
    List ReadAccessResultElement :=
  o.propsL.filterMap (fun pp =>
    if selectorKeeps sel pp.1 pp.2.optionalFlag then
      let e := read_property_to_result_element (some o) pp.1 aidx
      if keepElement e then some e else none
    else
      none)

/-- The element list produced for one property reference, lines 341 to 430:
a special selector on an unresolved object yields one unknownObject error
element; a special selector on a resolved object iterates its property
table; a single property is read through the result-element helper and then
passed through the undefined-property filter. -/
def elementsForRef (objOpt : Option BacObject) (ref : PropReference) :
    List ReadAccessResultElement :=
  if ref.propertyIdentifier = "all" ∨ ref.propertyIdentifier = "required"
      ∨ ref.propertyIdentifier = "optional" then
    match objOpt with
    | none =>
      [⟨ref.propertyIdentifier, ref.propertyArrayIndex,
        .accessError "object" "unknownObject"⟩]
    | some o => selectorElements o ref.propertyIdentifier ref.propertyArrayIndex
  else
    let e := read_property_to_result_element objOpt ref.propertyIdentifier
      ref.propertyArrayIndex
    if keepElement e then [e] else []

/-- The read access result built for one read access specification, lines
321 to 439: resolve the object, build the element lists of all its property
references, and aggregate them under the (possibly rewritten) object
identifier. -/
def rpmResultFor (app : BACnetApp) (s : ReadAccessSpec) : ReadAccessResult :=
  ⟨(resolveRPM app s.objectIdentifier).1,
   (s.listOfPropertyReferences.map
      (elementsForRef (resolveRPM app s.objectIdentifier).2)).flatten⟩

/-- The readPropertyMultiple handler, lines 314 to 448: the response slot
always receives a single Read-Property-Multiple Ack aggregating one result
per read access specification. -/
def readPropertyMultiple (app : BACnetApp) (req : RPMRequest) : Option Response :=
  some (.readPropertyMultipleAck (req.listOfReadAccessSpecs.map (rpmResultFor app)))

/-- The decoded service request passed to a handler.  The emptyReq
constructor stands for the request objects of services this application
never reads fields of. -/
inductive ServiceRequest where
  | whoIsReq (r : WhoIsRequest)
  | whoHasReq (r : WhoHasRequest)
  | readPropertyReq (r : ReadPropertyRequest)
  | readPropertyMultipleReq (r : RPMRequest)
  | emptyReq
  deriving Repr, DecidableEq

/-- Outcome of request.decode(apdu) inside indication.  attrError models the
exception tuple the source catches (AttributeError, RuntimeError and, on
the confirmed path, InvalidParameterDatatype); decodeErrorWith models a
bacpypes DecodingError, which the source passes over, so dispatch continues
with the partially decoded request object it carries. -/
inductive DecodeResult where
  | ok (r : ServiceRequest)
  | attrError
  | decodeErrorWith (r : ServiceRequest)
  deriving Repr, DecidableEq

/-- The incoming APDU as indication reads it: PDU type nibble, service
choice number, invoke id, and the outcome decoding its service arguments
would have. -/
structure InApdu where
  pduType : Nat
  apduService : Nat
  apduInvokeID : Nat
  decodeOutcome : DecodeResult
  deriving Repr, DecidableEq

/-- Models the external bacpypes table apdu-types: the PDU type nibbles with
a registered APDU class, 0x0 through 0x7.  Reserved nibbles 0x8 to 0xF have
no entry, so the dictionary get returns None for them. -/
def apduTypeKeys : List Nat := [0, 1, 2, 3, 4, 5, 6, 7]

/-- Models the external bacpypes enumeration ConfirmedServiceChoice, as a
list of name and value pairs in dictionary iteration order. -/
def confirmedServiceChoices : List (String × Nat) :=
  [("acknowledgeAlarm", 0), ("confirmedCOVNotification", 1),
   ("confirmedEventNotification", 2), ("getAlarmSummary", 3),
   ("getEnrollmentSummary", 4), ("getEventInformation", 29),
   ("lifeSafetyOperation", 27), ("subscribeCOV", 5),
   ("subscribeCOVProperty", 28), ("atomicReadFile", 6),
   ("atomicWriteFile", 7), ("addListElement", 8), ("removeListElement", 9),
   ("createObject", 10), ("deleteObject", 11), ("readProperty", 12),
   ("readPropertyMultiple", 14), ("readRange", 26), ("writeProperty", 15),
   ("writePropertyMultiple", 16), ("deviceCommunicationControl", 17),
   ("confirmedPrivateTransfer", 18), ("confirmedTextMessage", 19),
   ("reinitializeDevice", 20), ("vtOpen", 21), ("vtClose", 22),
   ("vtData", 23)]

/-- Models the external bacpypes enumeration UnconfirmedServiceChoice. -/
def unconfirmedServiceChoices : List (String × Nat) :=
  [("iAm", 0), ("iHave", 1), ("unconfirmedCOVNotification", 2),
   ("unconfirmedEventNotification", 3), ("unconfirmedPrivateTransfer", 4),
   ("unconfirmedTextMessage", 5), ("timeSynchronization", 6),
   ("whoHas", 7), ("whoIs", 8), ("utcTimeSynchronization", 9),
   ("writeGroup", 10)]

/-- Models the external bacpypes registry confirmed-request-types: one APDU
class registered per confirmed service choice of the enumeration, so its
key set is exactly the enumeration values. -/
def confirmedRequestTypeKeys : List Nat :=
  confirmedServiceChoices.map Prod.snd

/-- Models the external bacpypes registry unconfirmed-request-types, with
the same correspondence to the unconfirmed enumeration. -/
def unconfirmedRequestTypeKeys : List Nat :=
  unconfirmedServiceChoices.map Prod.snd

/-- The dispatch loop over an enumeration, lines 479 to 483 and 515 to 519:
the first pair whose value equals the service choice yields the handler
name. -/
def lookupServiceKey : List (String × Nat) → Nat → Option String
  | [], _ => none
  | (k, v) :: rest, svc => if svc = v then some k else lookupServiceKey rest svc

/-- The getattr handler call: for each method defined on BACnetApp the
updated response slot, and none when getattr raises AttributeError (the
not-implemented case).  iAm and iHave (lines 163 to 169) clear the slot.
The service choice determines the request class in the source, so a name
paired with a foreign request payload cannot occur on the dispatch path. -/
def runHandler (app : BACnetApp) (prv : Option Response) (name : String)
    (r : ServiceRequest) (address : String × Nat) (invokeKey : Nat) :
    Option (Option Response) :=
  match name, r with
  | "iAm", _ => some none
  | "iHave", _ => some none
  | "whoIs", .whoIsReq q => some (whoIs app prv q address)
  | "whoHas", .whoHasReq q => some (whoHas app prv q address)
  | "readProperty", .readPropertyReq q =>
      some (some (readProperty app q address invokeKey))
  | "readPropertyMultiple", .readPropertyMultipleReq q =>
      some (readPropertyMultiple app q)
  | _, _ => none

/-- Result of one indication call: either the function returned and the
response slot now holds the given value, or an exception escaped. -/
inductive IndicationResult where
  | response (slot : Option Response)
  | crash
  deriving Repr, DecidableEq

/-- The confirmed dispatch, lines 479 to 494: an unimplemented handler
(AttributeError) and an unmatched service choice both clear the slot. -/
def dispatchConfirmed (app : BACnetApp) (prv : Option Response)
    (r : ServiceRequest) (svc : Nat) (invokeKey : Nat)
    (address : String × Nat) : IndicationResult :=
  match lookupServiceKey confirmedServiceChoices svc with
  | some key =>
    match runHandler app prv key r address invokeKey with
    | some slot => .response slot
    | none => .response none
  | none => .response none

/-- The unconfirmed dispatch, lines 515 to 533: an unimplemented handler
clears the slot, but the for-else branch for a service choice missing from
the enumeration stores a bare ErrorPDU addressed to the requester. -/
def dispatchUnconfirmed (app : BACnetApp) (prv : Option Response)
    (r : ServiceRequest) (svc : Nat) (invokeKey : Nat)
    (address : String × Nat) : IndicationResult :=
  match lookupServiceKey unconfirmedServiceChoices svc with
  | some key =>
    match runHandler app prv key r address invokeKey with
    | some slot => .response slot
    | none => .response none
  | none => .response (some (.errorPDU (.localStation address.1 address.2)))

/-- The indication dispatcher, lines 450 to 567.  The initial logging call
dereferences the apdu-types dictionary entry, so a PDU type without a
registered class (the reserved nibbles) raises AttributeError before any
branch runs; likewise a confirmed or unconfirmed service choice without a
registered request class crashes in the branch logging call.  A confirmed
decode failure of the caught exception tuple returns without touching the
response slot; the unconfirmed one clears it; a DecodingError is passed
over and dispatch continues with the partially decoded request.  PDU types
2 through 7 (and the unreachable trailing branches) clear the slot. -/
def indication (app : BACnetApp) (prv : Option Response) (apdu : InApdu)
    (address : String × Nat) : IndicationResult :=
  if natMem apdu.pduType apduTypeKeys then
    if apdu.pduType = 0 then
      if natMem apdu.apduService confirmedRequestTypeKeys then
        match apdu.decodeOutcome with
        | .attrError => .response prv
        | .ok r => dispatchConfirmed app prv r apdu.apduService apdu.apduInvokeID address
        | .decodeErrorWith r =>
            dispatchConfirmed app prv r apdu.apduService apdu.apduInvokeID address
      else
        .crash
    else if apdu.pduType = 1 then
      if natMem apdu.apduService unconfirmedRequestTypeKeys then
        match apdu.decodeOutcome with
        | .attrError => .response none
        | .ok r => dispatchUnconfirmed app prv r apdu.apduService apdu.apduInvokeID address
        | .decodeErrorWith r =>
            dispatchUnconfirmed app prv r apdu.apduService apdu.apduInvokeID address
      else
        .crash
    else if apdu.pduType = 2 then .response none
    else if apdu.pduType = 3 then .response none
    else if apdu.pduType = 4 then .response none
    else if apdu.pduType = 5 then .response none
    else if apdu.pduType = 6 then .response none
    else if apdu.pduType = 7 then .response none
    else if 8 ≤ apdu.pduType ∧ apdu.pduType ≤ 15 then .response none
    else .response none
  else
    .crash

/-- The response object handed to the transmitter: its destination address
and whether it is an ErrorPDU or RejectPDU instance (the transmitter sends
those straight back to the requester address). -/
structure OutApdu where
  pduDestination : Addr
  isErrorOrReject : Bool
  deriving Repr, DecidableEq

/-- The BVLL framing chosen by the transmitter. -/
inductive BvllWrap where
  | originalUnicastNPDU
  | originalBroadcastNPDU
  deriving Repr, DecidableEq

/-- Which tuple the transmitter hands to the datagram server: the requester
address, or the broadcast tuple with empty host and the requester port. -/
inductive SendDest where
  | toAddress
  | toBroadcastPort
  deriving Repr, DecidableEq

/-- Result of the transmitter: nothing sent for a None response, a datagram
wrapped and handed to sendto, or the RuntimeError raised for a destination
that is neither local station nor local broadcast. -/
inductive TransmitResult where
  | noSend
  | sent (wrap : BvllWrap) (dest : SendDest)
  | runtimeError
  deriving Repr, DecidableEq

/-- The final sendto branch, lines 595 to 605: Error and Reject PDUs go to
the requester address; otherwise a destination equal to the global
broadcast representation goes to the broadcast tuple, anything else to the
requester address. -/
def sendBranch (r : OutApdu) : SendDest :=
  if r.isErrorOrReject then .toAddress
  else if r.pduDestination = Addr.globalBroadcast then .toBroadcastPort
  else .toAddress

/-- The response transmitter, lines 570 to 611: None means nothing to send;
a local station destination is wrapped as an Original-Unicast-NPDU and a
local broadcast destination as an Original-Broadcast-NPDU before the send;
every other destination kind raises RuntimeError before anything is
sent. -/
def response (respOpt : Option OutApdu) : TransmitResult :=
  match respOpt with
  | none => .noSend
  | some r =>
    match r.pduDestination with
    | .localStation _ _ => .sent .originalUnicastNPDU (sendBranch r)
    | .localBroadcast => .sent .originalBroadcastNPDU (sendBranch r)
    | _ => .runtimeError

/-- An analog-input object as populated from the reference template (object
AI 01, instance 14, present value 68.0); the reliability property has a
declared datatype but no stored value. -/
def sampleAI : BacObject :=
  ⟨"AI 01",
   [("objectName", ⟨some (.str "AI 01"), "CharacterString", false⟩),
    ("presentValue", ⟨some (.realVal 680), "Real", true⟩),
    ("reliability", ⟨none, "Reliability", true⟩)]⟩

/-- A binary-input object as populated from the reference template (object
BI 01, instance 12). -/
def sampleBI : BacObject :=
  ⟨"BI 01",
   [("objectName", ⟨some (.str "BI 01"), "CharacterString", false⟩),
    ("presentValue", ⟨some (.str "1"), "BinaryPV", true⟩)]⟩

/-- The local device as populated from the reference template: instance
36113, max APDU length 1024, segmentation segmentedBoth, vendor 15. -/
def sampleDevice : Device :=
  { objectIdentifier := ⟨"device", 36113⟩
    objectName := "Device_CONPOT"
    maxApduLengthAccepted := 1024
    segmentationSupported := "segmentedBoth"
    vendorIdentifier := 15
    propsL :=
      [("objectName", ⟨some (.str "Device_CONPOT"), "CharacterString", false⟩),
       ("vendorName", ⟨some (.str "Siemens"), "CharacterString", true⟩),
       ("description", ⟨none, "CharacterString", true⟩)] }

/-- A concrete application state used to evaluate the handlers. -/
def sampleApp : BACnetApp :=
  { localDevice := sampleDevice
    deviceIdentifier := ⟨"device", 36113⟩
    ownedObjects := [(⟨"analogInput", 14⟩, sampleAI), (⟨"binaryInput", 12⟩, sampleBI)] }

/-- A Read-Property-Multiple read access specification naming an object the
device does not own. -/
def rpmSpec0 : ReadAccessSpec :=
  ⟨⟨"analogInput", 99⟩, [⟨"presentValue", none⟩, ⟨"all", none⟩]⟩

/-- A Read-Property-Multiple request containing only rpmSpec0. -/
def rpmReq0 : RPMRequest := ⟨[rpmSpec0]⟩

/-- The readProperty loop equals a first-match search followed by the
processing of the found identifier. -/
theorem readPropLoop_eq_find (app : BACnetApp) (req : ReadPropertyRequest)
    (address : String × Nat) (invokeKey : Nat) (l : List ObjId) :
    readPropLoop app req address invokeKey l =
      match l.find? (fun o => rpMatchesB req.objectIdentifier o) with
      | some o => processMatch app req address invokeKey o
      | none => .bacError "object" "unknownObject" := by
  induction l with
  | nil => rfl
  | cons a rest ih =>
    simp only [readPropLoop, List.find?]
    cases h : rpMatchesB req.objectIdentifier a with
    | true => simp [h]
    | false => simp [h, ih]

/-- Flattening a map to singleton lists is the plain map. -/
theorem flatten_map_singleton {α β : Type} (f : α → β) (l : List α) :
    (l.map (fun x => [f x])).flatten = l.map f := by
  induction l with
  | nil => rfl
  | cons a rest ih => simp [ih]

/-- Over an unresolved object every property reference yields exactly one
unknownObject access error element. -/
theorem elementsForRef_none (ref : PropReference) :
    elementsForRef none ref =
      [⟨ref.propertyIdentifier, ref.propertyArrayIndex,
        .accessError "object" "unknownObject"⟩] := by
  unfold elementsForRef
  split
  · rfl
  · simp [read_property_to_result_element, keepElement]

/-- Claim C1 (code bug witness): the source executes Who-Is, and answers
I-Am, for a request whose instance range [500, 600] excludes the device
instance 36113, because the out-of-range test is the Python chained
comparison low > instance > high, which cannot hold when low is at most
high.  The claim (and the intent documented by the out-of-range log branch)
requires no reply here. -/
theorem C1_whoIs_range_bug :
    whoIs sampleApp none ⟨some 500, some 600⟩ ("10.0.0.5", 47808)
      = some (.iAm (.localStation "10.0.0.5" 47808) ⟨"device", 36113⟩
          1024 "segmentedBoth" 15)
  ∧ ¬ (500 ≤ deviceRangeInstance sampleApp ∧ deviceRangeInstance sampleApp ≤ 600) := by
  exact ⟨rfl, by decide⟩

/-- Claim C7 counterexample: the I-Am answered to a Who-Is is addressed to
the requester as a local-station (unicast) address, not to a broadcast
address; the broadcast destination exists in the source only as a
commented-out line. -/
theorem C7_unicast_counterexample :
    whoIs sampleApp none ⟨none, none⟩ ("10.0.0.7", 47808)
      = some (.iAm (.localStation "10.0.0.7" 47808) ⟨"device", 36113⟩
          1024 "segmentedBoth" 15)
  ∧ Addr.localStation "10.0.0.7" 47808 ≠ Addr.localBroadcast
  ∧ Addr.localStation "10.0.0.7" 47808 ≠ Addr.globalBroadcast := by
  exact ⟨rfl, by decide, by decide⟩

/-- Claim C7 (amended): every executed Who-Is stores an I-Am carrying the
device identifier, max APDU length accepted, segmentation supported and
vendor id, addressed to the requester address as a local-station (unicast)
destination. -/
theorem C7_iAm_fields (app : BACnetApp) (prv : Option Response)
    (req : WhoIsRequest) (addr : String × Nat)
    (hex : whoIsExecute app req = true) :
    whoIs app prv req addr
      = some (.iAm (.localStation addr.1 addr.2) app.deviceIdentifier
          app.localDevice.maxApduLengthAccepted
          app.localDevice.segmentationSupported
          app.localDevice.vendorIdentifier) := by
  simp [whoIs, hex]

/-- Witness for C7_iAm_fields at a concrete enclosing range. -/
theorem C7_iAm_fields_witness :
    whoIsExecute sampleApp ⟨some 500, some 50000⟩ = true
  ∧ whoIs sampleApp none ⟨some 500, some 50000⟩ ("10.0.0.9", 47808)
      = some (.iAm (.localStation "10.0.0.9" 47808) ⟨"device", 36113⟩
          1024 "segmentedBoth" 15) :=
  ⟨by decide,
   C7_iAm_fields sampleApp none ⟨some 500, some 50000⟩ ("10.0.0.9", 47808) (by decide)⟩

/-- Claim C8: a Who-Has that passes the range filter scans the owned object
list; on the first identifier matching the requested reference it stores an
I-Have carrying the device identifier, the matched instance number and the
real object name found in the object store; with no match the (fresh)
response slot stays empty. -/
theorem C8_whoHas_scan (app : BACnetApp) (req : WhoHasRequest)
    (addr : String × Nat) (hex : whoHasExecute app req = true) :
    (∀ obj entry,
        findWhoHas req.objectIdentifier (ownedIds app) = some obj →
        alookup (objectIdentifierDict app) obj = some entry →
        whoHas app none req addr
          = some (.iHave (.localStation addr.1 addr.2) app.deviceIdentifier
              obj.inst entry.objectName))
  ∧ (findWhoHas req.objectIdentifier (ownedIds app) = none →
        whoHas app none req addr = none) := by
  constructor
  · intro obj entry hf hd
    simp [whoHas, hex, hf, hd]
  · intro hf
    simp [whoHas, hex, hf]

/-- Witness for C8_whoHas_scan: Who-Has for (binaryInput, 12) answers I-Have
with the name BI 01; the no-match side is exercised through the same
theorem at an unknown identifier. -/
theorem C8_whoHas_scan_witness :
    whoHas sampleApp none ⟨none, none, ⟨"binaryInput", 12⟩⟩ ("5.5.5.5", 47808)
      = some (.iHave (.localStation "5.5.5.5" 47808) ⟨"device", 36113⟩ 12 "BI 01")
  ∧ whoHas sampleApp none ⟨none, none, ⟨"binaryInput", 99⟩⟩ ("5.5.5.5", 47808) = none :=
  ⟨(C8_whoHas_scan sampleApp ⟨none, none, ⟨"binaryInput", 12⟩⟩ ("5.5.5.5", 47808)
      (by decide)).1 ⟨"binaryInput", 12⟩ sampleBI (by decide) (by decide),
   (C8_whoHas_scan sampleApp ⟨none, none, ⟨"binaryInput", 99⟩⟩ ("5.5.5.5", 47808)
      (by decide)).2 (by decide)⟩

/-- Claim C10: the transmitter sends nothing for an empty response, wraps a
local-station destination as Original-Unicast-NPDU and a local-broadcast
destination as Original-Broadcast-NPDU, and raises RuntimeError for every
other destination kind instead of sending. -/
theorem C10_transmitter (r : OutApdu) :
    response none = .noSend
  ∧ (∀ h p, r.pduDestination = .localStation h p →
        response (some r) = .sent .originalUnicastNPDU (sendBranch r))
  ∧ (r.pduDestination = .localBroadcast →
        response (some r) = .sent .originalBroadcastNPDU (sendBranch r))
  ∧ ((∀ h p, r.pduDestination ≠ .localStation h p) →
      r.pduDestination ≠ .localBroadcast →
        response (some r) = .runtimeError) := by
  refine ⟨rfl, ?_, ?_, ?_⟩
  · intro h p hd
    simp [response, hd]
  · intro hd
    simp [response, hd]
  · intro hs hb
    cases hd : r.pduDestination
    · simp [response, hd]
    · exact absurd hd (hs _ _)
    · exact absurd hd hb
    · simp [response, hd]
    · simp [response, hd]
    · simp [response, hd]

/-- Witness for C10_transmitter: a global-broadcast destination raises
RuntimeError, a local-station one is sent unicast. -/
theorem C10_transmitter_witness :
    response (some ⟨Addr.globalBroadcast, false⟩) = .runtimeError
  ∧ response (some ⟨Addr.localStation "6.6.6.6" 47808, false⟩)
      = .sent .originalUnicastNPDU (sendBranch ⟨Addr.localStation "6.6.6.6" 47808, false⟩) :=
  ⟨(C10_transmitter ⟨Addr.globalBroadcast, false⟩).2.2.2
      (by intro h p hq; exact Addr.noConfusion hq)
      (by intro hq; exact Addr.noConfusion hq),
   (C10_transmitter ⟨Addr.localStation "6.6.6.6" 47808, false⟩).2.1 "6.6.6.6" 47808 rfl⟩

/-- Claim C2 (code bug witness): PDU types 2 through 7 are classified and
ignored with the response slot cleared, as the claim states; but a reserved
PDU type (8 through 15) makes the dispatcher raise an uncaught
AttributeError, because the apdu-types dictionary has no entry for it and
the initial logging call dereferences the missing class, so the explicit
reserved-type ignore branch of the source can never run. -/
theorem C2_nonrequest_types (app : BACnetApp) (prv : Option Response)
    (svc ik : Nat) (addr : String × Nat) (d : DecodeResult) (t : Nat)
    (h2 : 2 ≤ t) (h7 : t ≤ 7) :
    indication app prv ⟨t, svc, ik, d⟩ addr = .response none
  ∧ indication app prv ⟨8, svc, ik, d⟩ addr = .crash := by
  constructor
  · have ht : t = 2 ∨ t = 3 ∨ t = 4 ∨ t = 5 ∨ t = 6 ∨ t = 7 := by omega
    rcases ht with h | h | h | h | h | h <;> subst h <;> rfl
  · rfl

/-- Witness for C2_nonrequest_types at PDU type 5 (error PDU). -/
theorem C2_nonrequest_types_witness :
    indication sampleApp none ⟨5, 0, 0, .ok .emptyReq⟩ ("1.1.1.1", 47808) = .response none
  ∧ indication sampleApp none ⟨8, 0, 0, .ok .emptyReq⟩ ("1.1.1.1", 47808) = .crash :=
  C2_nonrequest_types sampleApp none 0 0 ("1.1.1.1", 47808) (.ok .emptyReq) 5
    (by decide) (by decide)

/-- Claim C3: a Read-Property request whose object identifier matches no
entry of the object list under the source match test (instance equal to
the wildcard 4194303 or to the candidate instance, and equal type tags)
is answered with Error(object, unknownObject). -/
theorem C3_unknown_object (app : BACnetApp) (req : ReadPropertyRequest)
    (addr : String × Nat) (ik : Nat)
    (h : ∀ o ∈ objectListFrom1 app, rpMatchesB req.objectIdentifier o = false) :
    readProperty app req addr ik = .bacError "object" "unknownObject" := by
  unfold readProperty
  rw [readPropLoop_eq_find]
  have hf : (objectListFrom1 app).find? (fun o => rpMatchesB req.objectIdentifier o) = none := by
    rw [List.find?_eq_none]
    intro o ho
    simp [h o ho]
  rw [hf]

/-- Witness for C3_unknown_object: reading presentValue of the absent
object (analogInput, 99). -/
theorem C3_unknown_object_witness :
    readProperty sampleApp ⟨⟨"analogInput", 99⟩, "presentValue"⟩ ("2.2.2.2", 47808) 7
      = .bacError "object" "unknownObject" :=
  C3_unknown_object sampleApp ⟨⟨"analogInput", 99⟩, "presentValue"⟩ ("2.2.2.2", 47808) 7
    (by decide)

/-- Claim C4: a Read-Property request that resolves to an object of the
store (the device included) but names a property with a declared datatype
and no stored value is answered with a Read-Property Ack carrying a
null-typed value of that datatype, never with an Error response. -/
theorem C4_unknown_property_ack (app : BACnetApp) (req : ReadPropertyRequest)
    (addr : String × Nat) (ik : Nat) (obj : ObjId) (entry : BacObject) (p : BacProp)
    (hfind : (objectListFrom1 app).find? (fun o => rpMatchesB req.objectIdentifier o)
        = some obj)
    (hdict : alookup (objectIdentifierDict app) obj = some entry)
    (hprop : alookup entry.propsL req.propertyIdentifier = some p)
    (hnone : p.valueOpt = none) :
    readProperty app req addr ik
      = .readPropertyAck (.localStation addr.1 addr.2) ik obj (some entry.objectName)
          req.propertyIdentifier (.null p.datatypeName)
  ∧ ∀ c m, readProperty app req addr ik ≠ .bacError c m := by
  have hmain : readProperty app req addr ik
      = .readPropertyAck (.localStation addr.1 addr.2) ik obj (some entry.objectName)
          req.propertyIdentifier (.null p.datatypeName) := by
    unfold readProperty
    rw [readPropLoop_eq_find, hfind]
    simp [processMatch, hdict, read_property_to_any, hprop, hnone, get_datatype]
  exact ⟨hmain, by intro c m; rw [hmain]; simp⟩

/-- Witness for C4_unknown_property_ack: the reliability property of
(analogInput, 14) has datatype Reliability and no stored value. -/
theorem C4_unknown_property_ack_witness :
    readProperty sampleApp ⟨⟨"analogInput", 14⟩, "reliability"⟩ ("3.3.3.3", 47808) 9
      = .readPropertyAck (.localStation "3.3.3.3" 47808) 9 ⟨"analogInput", 14⟩
          (some "AI 01") "reliability" (.null "Reliability") :=
  (C4_unknown_property_ack sampleApp ⟨⟨"analogInput", 14⟩, "reliability"⟩
    ("3.3.3.3", 47808) 9 ⟨"analogInput", 14⟩ sampleAI ⟨none, "Reliability", true⟩
    (by decide) (by decide) (by decide) rfl).1

/-- Claim C5 counterexample: a Who-Is datagram whose service argument
decoding fails with a bacpypes DecodingError is not dropped; the source
passes the exception over, the handler runs on the partially decoded
request and an I-Am reply is produced. -/
theorem C5_decode_error_replies :
    indication sampleApp none ⟨1, 8, 0, .decodeErrorWith (.whoIsReq ⟨none, none⟩)⟩
      ("8.8.8.8", 47808)
      = .response (some (.iAm (.localStation "8.8.8.8" 47808) ⟨"device", 36113⟩
          1024 "segmentedBoth" 15)) := by
  rfl

/-- Claim C5 (amended): a decode failure of the caught exception tuple
(AttributeError, RuntimeError, InvalidParameterDatatype) is dropped: the
confirmed path returns leaving the response slot untouched and the
unconfirmed path clears it; but a bacpypes DecodingError is passed over and
dispatch continues with the partially decoded request, which can produce a
reply. -/
theorem C5_decode_failure_paths (app : BACnetApp) (prv : Option Response)
    (svcC svcU ik : Nat) (addr : String × Nat) (q : WhoIsRequest)
    (hC : natMem svcC confirmedRequestTypeKeys = true)
    (hU : natMem svcU unconfirmedRequestTypeKeys = true) :
    indication app prv ⟨0, svcC, ik, .attrError⟩ addr = .response prv
  ∧ indication app prv ⟨1, svcU, ik, .attrError⟩ addr = .response none
  ∧ indication app prv ⟨1, 8, ik, .decodeErrorWith (.whoIsReq q)⟩ addr
      = .response (whoIs app prv q addr) := by
  refine ⟨?_, ?_, ?_⟩
  · simp [indication, hC, show natMem 0 apduTypeKeys = true from rfl]
  · simp [indication, hU, show natMem 1 apduTypeKeys = true from rfl]
  · rfl

/-- Witness for C5_decode_failure_paths at readProperty (confirmed, 12) and
whoIs (unconfirmed, 8). -/
theorem C5_decode_failure_paths_witness :
    indication sampleApp none ⟨0, 12, 3, .attrError⟩ ("4.4.4.4", 47808) = .response none
  ∧ indication sampleApp none ⟨1, 8, 3, .attrError⟩ ("4.4.4.4", 47808) = .response none
  ∧ indication sampleApp none ⟨1, 8, 3, .decodeErrorWith (.whoIsReq ⟨none, none⟩)⟩
      ("4.4.4.4", 47808)
      = .response (whoIs sampleApp none ⟨none, none⟩ ("4.4.4.4", 47808)) :=
  C5_decode_failure_paths sampleApp none 12 8 3 ("4.4.4.4", 47808) ⟨none, none⟩
    (by decide) (by decide)

/-- Claim C9: Read-Property-Multiple always stores exactly one
Read-Property-Multiple Ack with one result list per read access
specification, and a specification whose object identifier does not resolve
has every one of its property references turned into a per-element
unknownObject access error. -/
theorem C9_rpm_aggregate (app : BACnetApp) (req : RPMRequest) (s : ReadAccessSpec)
    (hs : s ∈ req.listOfReadAccessSpecs)
    (hunres : (resolveRPM app s.objectIdentifier).2 = none) :
    readPropertyMultiple app req
      = some (.readPropertyMultipleAck (req.listOfReadAccessSpecs.map (rpmResultFor app)))
  ∧ (req.listOfReadAccessSpecs.map (rpmResultFor app)).length
      = req.listOfReadAccessSpecs.length
  ∧ rpmResultFor app s ∈ req.listOfReadAccessSpecs.map (rpmResultFor app)
  ∧ (rpmResultFor app s).listOfResults
      = s.listOfPropertyReferences.map
          (fun r => ⟨r.propertyIdentifier, r.propertyArrayIndex,
            .accessError "object" "unknownObject"⟩) := by
  refine ⟨rfl, by simp, List.mem_map_of_mem _ hs, ?_⟩
  have he : elementsForRef (none : Option BacObject) = fun ref =>
      [⟨ref.propertyIdentifier, ref.propertyArrayIndex,
        ReadResult.accessError "object" "unknownObject"⟩] := funext elementsForRef_none
  simp only [rpmResultFor]
  rw [hunres, he]
  exact flatten_map_singleton
    (fun r : PropReference =>
      (⟨r.propertyIdentifier, r.propertyArrayIndex,
        ReadResult.accessError "object" "unknownObject"⟩ : ReadAccessResultElement)) _

/-- Witness for C9_rpm_aggregate at the unresolved object (analogInput, 99)
with one plain and one selector property reference. -/
theorem C9_rpm_aggregate_witness :
    readPropertyMultiple sampleApp rpmReq0
      = some (.readPropertyMultipleAck (rpmReq0.listOfReadAccessSpecs.map (rpmResultFor sampleApp)))
  ∧ (rpmReq0.listOfReadAccessSpecs.map (rpmResultFor sampleApp)).length
      = rpmReq0.listOfReadAccessSpecs.length
  ∧ rpmResultFor sampleApp rpmSpec0 ∈ rpmReq0.listOfReadAccessSpecs.map (rpmResultFor sampleApp)
  ∧ (rpmResultFor sampleApp rpmSpec0).listOfResults
      = rpmSpec0.listOfPropertyReferences.map
          (fun r => ⟨r.propertyIdentifier, r.propertyArrayIndex,
            .accessError "object" "unknownObject"⟩) :=
  C9_rpm_aggregate sampleApp rpmReq0 rpmSpec0 (by decide) (by decide)

/-- A found dispatch key implies membership of the service choice in the
corresponding type registry (whose key set is the enumeration values). -/
theorem natMem_of_lookupServiceKey :
    ∀ (tbl : List (String × Nat)) (svc : Nat) (k : String),
      lookupServiceKey tbl svc = some k → natMem svc (tbl.map Prod.snd) = true
  | [], svc, k => by
    intro h
    simp [lookupServiceKey] at h
  | (a, b) :: rest, svc, k => by
    intro h
    simp only [lookupServiceKey] at h
    simp only [List.map_cons, natMem]
    by_cases hb : svc = b
    · simp [hb]
    · simp only [if_neg hb] at h ⊢
      exact natMem_of_lookupServiceKey rest svc k h

/-- Membership of the service choice in the type registry implies the
dispatch loop finds a key, so the unmatched-choice branches cannot run. -/
theorem lookupServiceKey_of_natMem :
    ∀ (tbl : List (String × Nat)) (svc : Nat),
      natMem svc (tbl.map Prod.snd) = true → ∃ k, lookupServiceKey tbl svc = some k
  | [], svc => by
    intro h
    simp [natMem] at h
  | (a, b) :: rest, svc => by
    intro h
    by_cases hb : svc = b
    · exact ⟨a, by simp [lookupServiceKey, hb]⟩
    · simp only [List.map_cons, natMem, if_neg hb] at h
      obtain ⟨k, hk⟩ := lookupServiceKey_of_natMem rest svc h
      exact ⟨k, by simp [lookupServiceKey, hb, hk]⟩

/-- The readProperty match processing never yields a bare ErrorPDU. -/
theorem processMatch_ne_errorPDU (app : BACnetApp) (req : ReadPropertyRequest)
    (addr : String × Nat) (ik : Nat) (obj : ObjId) (d : Addr) :
    processMatch app req addr ik obj ≠ .errorPDU d := by
  unfold processMatch
  split
  · split
    · simp
    · split
      · simp
      · simp
  · split
    · simp
    · split
      · simp
      · simp

/-- The readProperty loop never yields a bare ErrorPDU. -/
theorem readPropLoop_ne_errorPDU (app : BACnetApp) (req : ReadPropertyRequest)
    (addr : String × Nat) (ik : Nat) (l : List ObjId) (d : Addr) :
    readPropLoop app req addr ik l ≠ .errorPDU d := by
  induction l with
  | nil => simp [readPropLoop]
  | cons a rest ih =>
    simp only [readPropLoop]
    split
    · exact processMatch_ne_errorPDU app req addr ik a d
    · exact ih

/-- The whoIs handler never stores a bare ErrorPDU (fresh slot). -/
theorem whoIs_ne_errorPDU (app : BACnetApp) (q : WhoIsRequest)
    (addr : String × Nat) (d : Addr) :
    whoIs app none q addr ≠ some (.errorPDU d) := by
  unfold whoIs
  split
  · simp
  · simp

/-- The whoHas handler never stores a bare ErrorPDU (fresh slot). -/
theorem whoHas_ne_errorPDU (app : BACnetApp) (q : WhoHasRequest)
    (addr : String × Nat) (d : Addr) :
    whoHas app none q addr ≠ some (.errorPDU d) := by
  unfold whoHas
  split
  · split
    · simp
    · simp
  · simp

/-- No implemented handler stores a bare ErrorPDU (fresh slot). -/
theorem runHandler_ne_errorPDU (app : BACnetApp) (name : String)
    (r : ServiceRequest) (addr : String × Nat) (ik : Nat)
    (slot : Option Response) (d : Addr) :
    runHandler app none name r addr ik = some slot → slot ≠ some (.errorPDU d) := by
  unfold runHandler
  intro h
  split at h
  · cases h
    simp
  · cases h
    simp
  · cases h
    exact whoIs_ne_errorPDU _ _ _ _
  · cases h
    exact whoHas_ne_errorPDU _ _ _ _
  · cases h
    intro hc
    injection hc with hc2
    exact readPropLoop_ne_errorPDU _ _ _ _ _ _ hc2
  · cases h
    simp [readPropertyMultiple]
  · exact absurd h (by simp)

/-- The confirmed dispatch of a registered service choice never stores a
bare ErrorPDU (fresh slot). -/
theorem dispatchConfirmed_ne_errorPDU (app : BACnetApp) (r : ServiceRequest)
    (svc ik : Nat) (addr : String × Nat) (d : Addr)
    (hmem : natMem svc confirmedRequestTypeKeys = true) :
    dispatchConfirmed app none r svc ik addr ≠ .response (some (.errorPDU d)) := by
  obtain ⟨k, hk⟩ := lookupServiceKey_of_natMem confirmedServiceChoices svc hmem
  intro hc
  unfold dispatchConfirmed at hc
  simp only [hk] at hc
  cases hr : runHandler app none k r addr ik with
  | none =>
    simp only [hr] at hc
    exact absurd hc (by simp)
  | some slot =>
    simp only [hr] at hc
    injection hc with hc2
    exact runHandler_ne_errorPDU app k r addr ik slot d hr hc2

/-- The unconfirmed dispatch of a registered service choice never reaches
the for-else branch that builds an ErrorPDU, nor stores one. -/
theorem dispatchUnconfirmed_ne_errorPDU (app : BACnetApp) (r : ServiceRequest)
    (svc ik : Nat) (addr : String × Nat) (d : Addr)
    (hmem : natMem svc unconfirmedRequestTypeKeys = true) :
    dispatchUnconfirmed app none r svc ik addr ≠ .response (some (.errorPDU d)) := by
  obtain ⟨k, hk⟩ := lookupServiceKey_of_natMem unconfirmedServiceChoices svc hmem
  intro hc
  unfold dispatchUnconfirmed at hc
  simp only [hk] at hc
  cases hr : runHandler app none k r addr ik with
  | none =>
    simp only [hr] at hc
    exact absurd hc (by simp)
  | some slot =>
    simp only [hr] at hc
    injection hc with hc2
    exact runHandler_ne_errorPDU app k r addr ik slot d hr hc2

/-- Claim C6: a well-formed request whose service choice resolves in the
enumeration but has no implemented handler method gets no reply, for
confirmed and for unconfirmed requests alike; and starting from a fresh
response slot the dispatcher never stores a bare ErrorPDU, so no ErrorPDU
is generated for an unrecognized but well-formed service. -/
theorem C6_unknown_service_no_reply :
    (∀ (app : BACnetApp) (prv : Option Response) (r : ServiceRequest)
        (svc ik : Nat) (addr : String × Nat) (key : String),
        lookupServiceKey confirmedServiceChoices svc = some key →
        runHandler app prv key r addr ik = none →
        indication app prv ⟨0, svc, ik, .ok r⟩ addr = .response none)
  ∧ (∀ (app : BACnetApp) (prv : Option Response) (r : ServiceRequest)
        (svc ik : Nat) (addr : String × Nat) (key : String),
        lookupServiceKey unconfirmedServiceChoices svc = some key →
        runHandler app prv key r addr ik = none →
        indication app prv ⟨1, svc, ik, .ok r⟩ addr = .response none)
  ∧ (∀ (app : BACnetApp) (apdu : InApdu) (addr : String × Nat) (d : Addr),
        indication app none apdu addr ≠ .response (some (.errorPDU d))) := by
  refine ⟨?_, ?_, ?_⟩
  · intro app prv r svc ik addr key hk hr
    have hmem : natMem svc confirmedRequestTypeKeys = true :=
      natMem_of_lookupServiceKey confirmedServiceChoices svc key hk
    simp [indication, hmem, show natMem 0 apduTypeKeys = true from rfl,
      dispatchConfirmed, hk, hr]
  · intro app prv r svc ik addr key hk hr
    have hmem : natMem svc unconfirmedRequestTypeKeys = true :=
      natMem_of_lookupServiceKey unconfirmedServiceChoices svc key hk
    simp [indication, hmem, show natMem 1 apduTypeKeys = true from rfl,
      dispatchUnconfirmed, hk, hr]
  · intro app apdu addr d h
    obtain ⟨t, svc, ik, dec⟩ := apdu
    by_cases h0 : natMem t apduTypeKeys = true
    · by_cases ht0 : t = 0
      · subst ht0
        by_cases hm : natMem svc confirmedRequestTypeKeys = true
        · cases dec with
          | attrError => simp [indication, h0, hm] at h
          | ok r =>
            simp only [indication, h0, hm, if_true] at h
            exact dispatchConfirmed_ne_errorPDU app r svc ik addr d hm (by simpa using h)
          | decodeErrorWith r =>
            simp only [indication, h0, hm, if_true] at h
            exact dispatchConfirmed_ne_errorPDU app r svc ik addr d hm (by simpa using h)
        · simp [indication, h0, hm] at h
      · by_cases ht1 : t = 1
        · subst ht1
          by_cases hm : natMem svc unconfirmedRequestTypeKeys = true
          · cases dec with
            | attrError => simp [indication, h0, hm] at h
            | ok r =>
              simp only [indication, h0, hm, if_true] at h
              exact dispatchUnconfirmed_ne_errorPDU app r svc ik addr d hm (by simpa using h)
            | decodeErrorWith r =>
              simp only [indication, h0, hm, if_true] at h
              exact dispatchUnconfirmed_ne_errorPDU app r svc ik addr d hm (by simpa using h)
          · simp [indication, h0, hm] at h
        · simp [indication, h0, ht0, ht1] at h
    · simp [indication, h0] at h

/-- Witness for C6_unknown_service_no_reply: atomicReadFile (confirmed
choice 6) and timeSynchronization (unconfirmed choice 6) have no handler
method and get no reply. -/
theorem C6_unknown_service_no_reply_witness :
    indication sampleApp none ⟨0, 6, 3, .ok .emptyReq⟩ ("9.9.9.9", 47808) = .response none
  ∧ indication sampleApp none ⟨1, 6, 0, .ok .emptyReq⟩ ("9.9.9.9", 47808) = .response none :=
  ⟨C6_unknown_service_no_reply.1 sampleApp none .emptyReq 6 3 ("9.9.9.9", 47808)
      "atomicReadFile" (by decide) (by decide),
   C6_unknown_service_no_reply.2.1 sampleApp none .emptyReq 6 0 ("9.9.9.9", 47808)
      "timeSynchronization" (by decide) (by decide)⟩

end Conpot
